import Mathlib

/-
  Verification development for the `udacity-dataengineer-datawarehouse`
  repository (a batch ETL pipeline: `sql_queries.py`, `etl.py`,
  `create_tables.py`).

  The embedding models:
  * the SQL statement constants of `sql_queries.py` (as the literal strings
    the module builds, with the COPY statements additionally given a
    clause-level structured form since they are assembled from `dwh.cfg`
    configuration values);
  * the psycopg2 wrapper functions `connect` / `disconnect` / `execute` /
    `drop` as total Lean functions over an explicit fault model (the fault
    classes a call can raise are the ones the corresponding Python
    `except` clause can meet);
  * the two orchestrators (`create_tables.main`, `etl.main`) as effect
    traces (which statements are attempted, in which order, with commits
    and the final close);
  * the relational meaning of the transform/insert statements over list
    representations of the staging tables (SQL NULL as `Option`,
    `SELECT DISTINCT` as `List.dedup`, `LEFT JOIN` with SQL tri-valued
    equality on nullable columns);
  * the warehouse schema state acted on by the schema pipeline
    (`DROP TABLE IF EXISTS` then `CREATE TABLE`).
-/

namespace DWH

/-! ## Configuration (`dwh.cfg` values read at module import) -/

/-- The configuration values `sql_queries.py` reads from `dwh.cfg`:
the two S3 data locations, the JSONPaths mapping document location, and
the IAM role ARN.  (The CLUSTER connection parameters only feed the
connection string, which the wrapper model keeps abstract.) -/
structure Config where
  LOG_DATA : String
  LOG_JSONPATH : String
  SONG_DATA : String
  ARN : String

/-! ## Bulk-load (COPY) statements, clause-level view

`STAGING_EVENTS_COPY` / `STAGING_SONGS_COPY` in `sql_queries.py` are
format strings filled with configuration values.  `CopyStatement` records
the statement clause by clause, in source order: target table, FROM
location, JSON field-mapping option, IAM_ROLE credential, REGION. -/

/-- The argument of a Redshift `COPY ... JSON` clause: either the literal
`auto` (infer the field mapping) or the location of an explicit
JSONPaths field-mapping document. -/
inductive JsonOption where
  | auto : JsonOption
  | jsonpathsDocument (location : String) : JsonOption
deriving DecidableEq

/-- Clause-level form of a Redshift COPY-from-S3 statement as built in
`sql_queries.py`. -/
structure CopyStatement where
  table : String
  fromLocation : String
  json : JsonOption
  iam_role : String
  region : String

/-- `STAGING_EVENTS_COPY` (sql_queries.py lines 115-124): copy into
`staging_events` from `LOG_DATA`, with the explicit JSONPaths document
`LOG_JSONPATH`, the configured IAM role, region `us-west-2`. -/
def STAGING_EVENTS_COPY (cfg : Config) : CopyStatement :=
  { table := "staging_events"
  , fromLocation := cfg.LOG_DATA
  , json := JsonOption.jsonpathsDocument cfg.LOG_JSONPATH
  , iam_role := cfg.ARN
  , region := "us-west-2" }

/-- `STAGING_SONGS_COPY` (sql_queries.py lines 126-132): copy into
`staging_songs` from `SONG_DATA`, with `JSON 'auto'` (inferred field
mapping), the configured IAM role, region `us-west-2`. -/
def STAGING_SONGS_COPY (cfg : Config) : CopyStatement :=
  { table := "staging_songs"
  , fromLocation := cfg.SONG_DATA
  , json := JsonOption.auto
  , iam_role := cfg.ARN
  , region := "us-west-2" }

/-- Rendering of the JSON clause argument (`'auto'` is quoted in the
source text; a mapping-document location is spliced in as configured). -/
def renderJsonOption : JsonOption → String
  | JsonOption.auto => "\x27auto\x27"
  | JsonOption.jsonpathsDocument l => l

/-- Rendering of a clause-level COPY statement back to the literal SQL
text the Python format string produces. -/
def renderCopy (c : CopyStatement) : String :=
  "\nCOPY " ++ c.table ++ "\nFROM " ++ c.fromLocation ++ "\nJSON "
    ++ renderJsonOption c.json ++ "\nIAM_ROLE " ++ c.iam_role
    ++ "\nREGION \x27" ++ c.region ++ "\x27\n"

/-! ## Table list and CREATE TABLE statements (verbatim from the source) -/

/-- `TABLES` (sql_queries.py lines 18-19). -/
def TABLES : List String :=
  ["staging_events", "staging_songs", "songplays", "users", "songs",
   "artists", "time"]

/-- `STAGING_EVENTS_CREATE` (sql_queries.py lines 22-44). -/
def STAGING_EVENTS_CREATE : String :=
"\nCREATE TABLE staging_events (\n    staging_event_id int identity(0,1) PRIMARY KEY,\n    artist varchar,\n    auth varchar,\n    firstName varchar,\n    gender varchar,\n    itemInSession smallint,\n    lastName varchar,\n    length numeric,\n    level varchar,\n    location varchar,\n    method varchar,\n    page varchar,\n    registration numeric,\n    sessionId smallint,\n    song varchar,\n    status smallint,\n    ts bigint,\n    userAgent varchar,\n    userId int\n)\n"

/-- `STAGING_SONGS_CREATE` (sql_queries.py lines 46-60). -/
def STAGING_SONGS_CREATE : String :=
"\nCREATE TABLE staging_songs (\n    staging_song_id int identity(0,1) PRIMARY KEY,\n    num_songs smallint,\n    artist_id varchar,\n    artist_latitude numeric,\n    artist_longitude numeric,\n    artist_location varchar,\n    artist_name varchar,\n    song_id varchar,\n    title varchar,\n    duration numeric,\n    year int\n)\n"

/-- `SONGPLAYS_CREATE` (sql_queries.py lines 62-74). -/
def SONGPLAYS_CREATE : String :=
"\nCREATE TABLE songplays (\n    songplay_id int identity(0,1) PRIMARY KEY,\n    start_time timestamp,\n    user_id int NOT NULL,\n    song_id varchar,\n    artist_id varchar,\n    session_id smallint,\n    length numeric,\n    location varchar,\n    user_agent varchar\n)\n"

/-- `USERS_CREATE` (sql_queries.py lines 75-83). -/
def USERS_CREATE : String :=
"\nCREATE TABLE users (\n    user_id int PRIMARY KEY,\n    first_name varchar,\n    last_name varchar,\n    gender varchar,\n    level varchar\n)\n"

/-- `SONGS_CREATE` (sql_queries.py lines 84-92). -/
def SONGS_CREATE : String :=
"\nCREATE TABLE songs (\n    song_id varchar PRIMARY KEY,\n    title varchar NOT NULL,\n    artist_id varchar,\n    year int,\n    duration numeric\n)\n"

/-- `ARTISTS_CREATE` (sql_queries.py lines 93-101). -/
def ARTISTS_CREATE : String :=
"\nCREATE TABLE artists (\n    artist_id varchar PRIMARY KEY,\n    name varchar NOT NULL,\n    location varchar,\n    latitude numeric,\n    longitude numeric\n)\n"

/-- `TIME_CREATE` (sql_queries.py lines 102-112). -/
def TIME_CREATE : String :=
"\nCREATE TABLE time (\n    start_time timestamp PRIMARY KEY,\n    hour int NOT NULL,\n    day int NOT NULL,\n    week int NOT NULL,\n    month int NOT NULL,\n    year int NOT NULL,\n    weekday int NOT NULL\n)\n"

/-! ## Transform / insert statements (verbatim from the source, with
apostrophes written as the escape `\x27`) -/

/-- `SONGPLAYS_INSERT` (sql_queries.py lines 136-152). -/
def SONGPLAYS_INSERT : String :=
"\nINSERT INTO songplays (start_time, user_id, song_id, artist_id, session_id,\n    length, location, user_agent)\nSELECT\n    (timestamp \x27epoch\x27 + se.ts/1000 * interval \x271 s\x27) AS start_time,\n    se.userId AS user_id,\n    s.song_id,\n    a.artist_id,\n    se.sessionId AS session_id,\n    se.length,\n    se.location,\n    se.userAgent AS user_agent\nFROM staging_events se\nLEFT JOIN songs s ON se.song = s.title\nLEFT JOIN artists a ON se.artist = a.name\nWHERE se.userId IS NOT NULL\n"

/-- `USERS_INSERT` (sql_queries.py lines 154-164). -/
def USERS_INSERT : String :=
"\nINSERT INTO users\nSELECT DISTINCT\n    userId AS user_id,\n    firstName AS first_name,\n    lastName AS last_name,\n    gender,\n    level\nFROM staging_events\nWHERE userId IS NOT NULL\n"

/-- `SONGS_INSERT` (sql_queries.py lines 166-175). -/
def SONGS_INSERT : String :=
"\nINSERT INTO songs\nSELECT DISTINCT\n    song_id,\n    title,\n    artist_id,\n    year,\n    duration\nFROM staging_songs\n"

/-- `ARTISTS_INSERT` (sql_queries.py lines 177-186). -/
def ARTISTS_INSERT : String :=
"\nINSERT INTO artists\nSELECT DISTINCT\n    artist_id,\n    artist_name AS name,\n    artist_location AS location,\n    artist_latitude AS latitude,\n    artist_longitude AS longitude\nFROM staging_songs\n"

/-- `TIME_INSERT` (sql_queries.py lines 188-211). -/
def TIME_INSERT : String :=
"\nINSERT INTO time\nSELECT DISTINCT\n    (timestamp \x27epoch\x27 + ts/1000 * interval \x271 s\x27) AS start_time,\n    EXTRACT(hour\n        FROM (timestamp \x27epoch\x27 + ts/1000 * interval \x271 s\x27)\n    ) AS hour,\n    EXTRACT(day\n        FROM (timestamp \x27epoch\x27 + ts/1000 * interval \x271 s\x27)\n    ) AS day,\n    EXTRACT(week\n        FROM (timestamp \x27epoch\x27 + ts/1000 * interval \x271 s\x27)\n    ) AS week,\n    EXTRACT(month\n        FROM (timestamp \x27epoch\x27 + ts/1000 * interval \x271 s\x27)\n    ) AS month,\n    EXTRACT(year\n        FROM (timestamp \x27epoch\x27 + ts/1000 * interval \x271 s\x27)\n    ) AS year,\n    EXTRACT(weekday\n        FROM (timestamp \x27epoch\x27 + ts/1000 * interval \x271 s\x27)\n    ) AS weekday\nFROM staging_events\n"

/-! ## Query lists (sql_queries.py lines 214-221) -/

/-- `CREATE_QUERIES` (sql_queries.py lines 214-216). -/
def CREATE_QUERIES : List String :=
  [STAGING_EVENTS_CREATE, STAGING_SONGS_CREATE,
   SONGPLAYS_CREATE, USERS_CREATE, SONGS_CREATE, ARTISTS_CREATE, TIME_CREATE]

/-- `COPY_QUERIES` (sql_queries.py line 218), rendered from the
configuration as the module does at import time. -/
def COPY_QUERIES (cfg : Config) : List String :=
  [renderCopy (STAGING_EVENTS_COPY cfg), renderCopy (STAGING_SONGS_COPY cfg)]

/-- `INSERT_QUERIES` (sql_queries.py lines 220-221). -/
def INSERT_QUERIES : List String :=
  [ARTISTS_INSERT, SONGS_INSERT, USERS_INSERT, TIME_INSERT,
   SONGPLAYS_INSERT]

/-! ## Database access wrapper (sql_queries.py lines 225-322)

The wrapper functions are modelled as total functions over an explicit
fault model.  A statement execution either succeeds or raises one of the
fault classes named in `execute`'s `except` clause (`psycopg2.Error`,
`UnicodeEncodeError`); the per-statement outcome is supplied by an
environment `env : String → Option DBFault` (`none` = success). -/

/-- The fault classes `execute`'s `except` clause catches: a psycopg2
driver error or a `UnicodeEncodeError`, each carrying its message. -/
inductive DBFault where
  | dbError (msg : String) : DBFault
  | unicodeEncodeError (msg : String) : DBFault
deriving DecidableEq

/-- The message printed for a caught fault (`print(e)`). -/
def DBFault.msg : DBFault → String
  | DBFault.dbError m => m
  | DBFault.unicodeEncodeError m => m

/-- A cursor handle.  `closeFault` is the psycopg2 error message its
`close()` call would raise, if any (`none` = closes cleanly). -/
structure Cursor where
  closeFault : Option String
deriving DecidableEq

/-- A connection handle.  `autocommit` is the session autocommit flag
(set by `connection.set_session`); `closeFault` as for `Cursor`. -/
structure Connection where
  autocommit : Bool
  closeFault : Option String
deriving DecidableEq

/-- `connect` (sql_queries.py lines 225-248).  `attempt` is the outcome
of `psycopg2.connect` + `cursor()`: `Except.error msg` when a
`psycopg2.Error` with message `msg` is raised, `Except.ok (cur, conn)`
when a cursor/connection pair is obtained.  On success the source runs
`connection.set_session(autocommit=True)` unconditionally — the
`autocommit` parameter is never consulted.  On failure it logs and
returns the sentinel pair `(None, None)`.  The result is the returned
`(cursor, connection)` pair together with the printed log lines. -/
def connect (attempt : Except String (Cursor × Connection))
    (connection_string : String) (autocommit : Bool) :
    (Option Cursor × Option Connection) × List String :=
  match attempt with
  | Except.ok (cur, conn) =>
      ((some cur, some { conn with autocommit := true }), [])
  | Except.error e =>
      ((none, none), ["ERROR: Could not OPEN connection or GET cursor DB", e])

/-- A Python exception escaping `disconnect`'s `try` block: either a
psycopg2 driver error (matched by its `except` clause) or the
`AttributeError` raised by calling `.close()` on `None`. -/
inductive PyFault where
  | psycopgError (msg : String) : PyFault
  | attributeError (msg : String) : PyFault
deriving DecidableEq

/-- `cursor.close()` on a possibly-absent cursor: on `None`, Python
raises `AttributeError`; on a real cursor, it either succeeds or raises
the driver fault recorded in the handle. -/
def closeCursor : Option Cursor → Except PyFault Unit
  | none =>
      Except.error
        (PyFault.attributeError "NoneType object has no attribute close")
  | some c =>
      match c.closeFault with
      | some m => Except.error (PyFault.psycopgError m)
      | none => Except.ok ()

/-- `connection.close()` on a possibly-absent connection, as
`closeCursor`. -/
def closeConnection : Option Connection → Except PyFault Unit
  | none =>
      Except.error
        (PyFault.attributeError "NoneType object has no attribute close")
  | some c =>
      match c.closeFault with
      | some m => Except.error (PyFault.psycopgError m)
      | none => Except.ok ()

/-- `disconnect` (sql_queries.py lines 251-264): runs `cursor.close()`
then `connection.close()` inside a `try` whose `except` clause matches
only `psycopg2.Error`.  A caught fault is logged and swallowed
(`Except.ok` with the log lines); any other fault propagates to the
caller (`Except.error`). -/
def disconnect (cursor : Option Cursor) (connection : Option Connection) :
    Except PyFault (List String) :=
  match (do closeCursor cursor; closeConnection connection :
      Except PyFault Unit) with
  | Except.ok _ => Except.ok []
  | Except.error (PyFault.psycopgError m) =>
      Except.ok ["ERROR: Issue disconnecting from DB", m]
  | Except.error f => Except.error f

/-- `execute` (sql_queries.py lines 267-288): runs one statement through
the cursor; both fault classes are caught, logged, and turned into the
returned flag `false`; success returns `true`.  The result is the
returned boolean together with the printed log lines; the function is
total — no fault of the modelled classes escapes it. -/
def execute (query : String) (env : String → Option DBFault) :
    Bool × List String :=
  match env query with
  | none => (true, [])
  | some f =>
      (false, ["ERROR: Issue executing query:\n" ++ query ++ "\n", f.msg])

/-- `drop` (sql_queries.py lines 309-322): issues
`DROP TABLE IF EXISTS {table}` and swallows (logging) any driver fault.
`fault` is the psycopg2 error message that execution raises, if any;
this statement is constant ASCII text, so `UnicodeEncodeError` (which
`drop`'s `except` clause would not catch) cannot arise.  The result is
the printed log lines. -/
def drop (table : String) (fault : Option String) : List String :=
  match fault with
  | none => []
  | some m => ["ERROR: Issue dropping table " ++ table ++ ".", m]

/-! ## Orchestrator effect traces (etl.py, create_tables.py)

The observable side effects of a pipeline run, in order: each statement
attempted through the cursor, each `connection.commit()`, and the final
`disconnect`. -/

/-- One observable warehouse-side effect of an orchestrator run. -/
inductive Effect where
  | exec (query : String) : Effect
  | commit : Effect
  | close : Effect
deriving DecidableEq

/-- `load_staging_tables` (etl.py lines 5-15): for each COPY query,
call `sql.execute` (return value discarded) and then
`connection.commit()`.  Result: effect trace and accumulated log. -/
def load_staging_tables (cfg : Config) (env : String → Option DBFault) :
    List Effect × List String :=
  (COPY_QUERIES cfg).foldl
    (fun acc query =>
      let r := execute query env
      (acc.1 ++ [Effect.exec query, Effect.commit], acc.2 ++ r.2))
    ([], [])

/-- `insert_tables` (etl.py lines 18-28): for each INSERT query, call
`sql.execute` — the returned success flag is discarded — and then
`connection.commit()`, unconditionally. -/
def insert_tables (env : String → Option DBFault) :
    List Effect × List String :=
  INSERT_QUERIES.foldl
    (fun acc query =>
      let r := execute query env
      (acc.1 ++ [Effect.exec query, Effect.commit], acc.2 ++ r.2))
    ([], [])

/-- `etl.main` (etl.py lines 31-52): connect with the default
`autocommit=False`, return immediately if the cursor is the failure
sentinel (`if not cursor: return`), otherwise load the staging tables,
insert into the final tables, and disconnect.  The result is the effect
trace of the run. -/
def etlMain (attempt : Except String (Cursor × Connection))
    (connection_string : String) (cfg : Config)
    (env : String → Option DBFault) : List Effect :=
  match (connect attempt connection_string false).1 with
  | (none, _) => []
  | (some _, _) =>
      (load_staging_tables cfg env).1 ++ (insert_tables env).1
        ++ [Effect.close]

/-- `drop_tables` (create_tables.py lines 11-19): for each declared
table, call `sql.drop`.  `faults` gives the driver fault (if any) per
table.  Result: effect trace (the attempted DROP statements) and log. -/
def drop_tables (faults : String → Option String) :
    List Effect × List String :=
  TABLES.foldl
    (fun acc table =>
      (acc.1 ++ [Effect.exec ("DROP TABLE IF EXISTS " ++ table)],
       acc.2 ++ drop table (faults table)))
    ([], [])

/-- `create_tables` (create_tables.py lines 22-30): for each CREATE
query, call `sql.execute` (return value discarded; no commit — the
schema pipeline's session has autocommit on). -/
def create_tables (env : String → Option DBFault) :
    List Effect × List String :=
  CREATE_QUERIES.foldl
    (fun acc query =>
      let r := execute query env
      (acc.1 ++ [Effect.exec query], acc.2 ++ r.2))
    ([], [])

/-- `create_tables.main` (create_tables.py lines 33-54): connect with
`autocommit=True`, return immediately if the cursor is the failure
sentinel, otherwise drop all tables, create all tables, disconnect. -/
def createTablesMain (attempt : Except String (Cursor × Connection))
    (connection_string : String) (faults : String → Option String)
    (env : String → Option DBFault) : List Effect :=
  match (connect attempt connection_string true).1 with
  | (none, _) => []
  | (some _, _) =>
      (drop_tables faults).1 ++ (create_tables env).1 ++ [Effect.close]

/-! ## Relational model of the transform statements

Staging tables are lists of rows; a nullable SQL column is an `Option`;
`SELECT DISTINCT` is `List.dedup` on the projected rows (result order is
unspecified in SQL and irrelevant to the claims, which are about which
rows appear); Redshift does not enforce declared primary keys, so
`INSERT INTO t SELECT ...` appends the selected rows to the table.
`bigint` division (`ts/1000`) truncates toward zero, as does `Int`
division here. -/

/-- A `staging_events` row (columns of `STAGING_EVENTS_CREATE`, minus
the generated identity key). -/
structure EventRow where
  artist : Option String
  auth : Option String
  firstName : Option String
  gender : Option String
  itemInSession : Option Int
  lastName : Option String
  length : Option Rat
  level : Option String
  location : Option String
  method : Option String
  page : Option String
  registration : Option Rat
  sessionId : Option Int
  song : Option String
  status : Option Int
  ts : Option Int
  userAgent : Option String
  userId : Option Int
deriving DecidableEq

/-- A `songs` dimension row (columns of `SONGS_CREATE`). -/
structure SongDimRow where
  song_id : Option String
  title : Option String
  artist_id : Option String
  year : Option Int
  duration : Option Rat
deriving DecidableEq

/-- An `artists` dimension row (columns of `ARTISTS_CREATE`). -/
structure ArtistDimRow where
  artist_id : Option String
  name : Option String
  location : Option String
  latitude : Option Rat
  longitude : Option Rat
deriving DecidableEq

/-- A `users` dimension row (columns of `USERS_CREATE`). -/
structure UserRow where
  user_id : Option Int
  first_name : Option String
  last_name : Option String
  gender : Option String
  level : Option String
deriving DecidableEq

/-- A `songplays` fact row (columns of `SONGPLAYS_CREATE`, minus the
generated identity key); `start_time` is kept as seconds since the
epoch. -/
structure SongplayRow where
  start_time : Option Int
  user_id : Option Int
  song_id : Option String
  artist_id : Option String
  session_id : Option Int
  length : Option Rat
  location : Option String
  user_agent : Option String
deriving DecidableEq

/-- A `time` dimension row (columns of `TIME_CREATE`); `start_time` as
seconds since the epoch. -/
structure TimeRow where
  start_time : Option Int
  hour : Option Int
  day : Option Int
  week : Option Int
  month : Option Int
  year : Option Int
  weekday : Option Int
deriving DecidableEq

/-- SQL equality on two nullable values: `NULL = x` is not true, so a
join predicate comparing against a NULL column matches nothing. -/
def sqlEq {α : Type} [DecidableEq α] : Option α → Option α → Bool
  | some a, some b => a = b
  | _, _ => false

/-- The rows a single left-hand row contributes to a `LEFT JOIN`: one
joined row per matching right-hand row, or a single row padded with
`none` when nothing matches. -/
def leftJoinRow {α β : Type} (a : α) (right : List β)
    (joinOn : α → β → Bool) : List (α × Option β) :=
  match right.filter (fun b => joinOn a b) with
  | [] => [(a, none)]
  | b :: bs => (b :: bs).map (fun m => (a, some m))

/-- `LEFT JOIN` of two list-tables under a join predicate. -/
def leftJoin {α β : Type} (left : List α) (right : List β)
    (joinOn : α → β → Bool) : List (α × Option β) :=
  left.flatMap (fun a => leftJoinRow a right joinOn)

/-- The `SELECT` projection of `USERS_INSERT`:
`userId, firstName, lastName, gender, level`. -/
def userProjection (e : EventRow) : UserRow :=
  { user_id := e.userId
  , first_name := e.firstName
  , last_name := e.lastName
  , gender := e.gender
  , level := e.level }

/-- The result set of `USERS_INSERT`'s query
(`SELECT DISTINCT ... FROM staging_events WHERE userId IS NOT NULL`):
filter the staging rows, project, and deduplicate whole result tuples. -/
def usersSelect (staging_events : List EventRow) : List UserRow :=
  ((staging_events.filter (fun e => e.userId.isSome)).map
    userProjection).dedup

/-- `INSERT INTO users SELECT DISTINCT ...`: appends the selected rows
to the current `users` table (Redshift does not enforce the declared
primary key). -/
def usersInsert (users : List UserRow) (staging_events : List EventRow) :
    List UserRow :=
  users ++ usersSelect staging_events

/-- Join predicate `se.song = s.title` of `SONGPLAYS_INSERT`. -/
def onSongTitle (e : EventRow) (s : SongDimRow) : Bool :=
  sqlEq e.song s.title

/-- Join predicate `se.artist = a.name` of `SONGPLAYS_INSERT` (the
left-hand side after the first join carries the event row in its first
component). -/
def onArtistName (r : EventRow × Option SongDimRow) (a : ArtistDimRow) :
    Bool :=
  sqlEq r.1.artist a.name

/-- The `SELECT` projection of `SONGPLAYS_INSERT`: the derived
`start_time` is `epoch + ts/1000 * interval 1s`, i.e. `ts/1000` seconds
since the epoch (NULL when `ts` is NULL; SQL `bigint` division
truncates toward zero, `Int.tdiv`); `song_id` / `artist_id` come
from the (possibly unmatched) joined dimension rows. -/
def songplayProjection
    (r : (EventRow × Option SongDimRow) × Option ArtistDimRow) :
    SongplayRow :=
  { start_time := r.1.1.ts.map (fun t => Int.tdiv t 1000)
  , user_id := r.1.1.userId
  , song_id := r.1.2.bind (fun s => s.song_id)
  , artist_id := r.2.bind (fun a => a.artist_id)
  , session_id := r.1.1.sessionId
  , length := r.1.1.length
  , location := r.1.1.location
  , user_agent := r.1.1.userAgent }

/-- The result set of `SONGPLAYS_INSERT`'s query:
`FROM staging_events se LEFT JOIN songs s ON se.song = s.title
LEFT JOIN artists a ON se.artist = a.name WHERE se.userId IS NOT NULL`,
then the projection (no DISTINCT on this statement). -/
def songplaysSelect (staging_events : List EventRow)
    (songs : List SongDimRow) (artists : List ArtistDimRow) :
    List SongplayRow :=
  ((leftJoin (leftJoin staging_events songs onSongTitle) artists
      onArtistName).filter
    (fun r => r.1.1.userId.isSome)).map songplayProjection

/-! ### Calendar arithmetic for `TIME_INSERT`'s `EXTRACT` expressions

Timestamps are seconds since the epoch 1970-01-01 00:00:00; the civil
date of a day number follows the proleptic Gregorian calendar
(era-based day/date conversion). -/

/-- Civil day number (days since 1970-01-01) of an epoch-second value. -/
def dayOfSeconds (secs : Int) : Int :=
  Int.fdiv secs 86400

/-- `EXTRACT(hour FROM ...)`: the hour-of-day component. -/
def extractHour (secs : Int) : Int :=
  Int.fdiv (Int.emod secs 86400) 3600

/-- Civil (year, month, day) of a day number (days since 1970-01-01),
proleptic Gregorian. -/
def civilOfDay (z : Int) : Int × Int × Int :=
  let z2 := z + 719468
  let era := Int.fdiv z2 146097
  let doe := z2 - era * 146097
  let yoe := Int.fdiv
    (doe - Int.fdiv doe 1460 + Int.fdiv doe 36524 - Int.fdiv doe 146096) 365
  let y := yoe + era * 400
  let doy := doe - (365 * yoe + Int.fdiv yoe 4 - Int.fdiv yoe 100)
  let mp := Int.fdiv (5 * doy + 2) 153
  let d := doy - Int.fdiv (153 * mp + 2) 5 + 1
  let m := mp + (if mp < 10 then 3 else -9)
  (y + (if m ≤ 2 then 1 else 0), m, d)

/-- Day number (days since 1970-01-01) of a civil (year, month, day),
inverse of `civilOfDay`. -/
def dayOfCivil (y m d : Int) : Int :=
  let y2 := y - (if m ≤ 2 then 1 else 0)
  let era := Int.fdiv y2 400
  let yoe := y2 - era * 400
  let mp := m + (if m > 2 then -3 else 9)
  let doy := Int.fdiv (153 * mp + 2) 5 + d - 1
  let doe := yoe * 365 + Int.fdiv yoe 4 - Int.fdiv yoe 100 + doy
  era * 146097 + doe - 719468

/-- `EXTRACT(year FROM ...)`. -/
def extractYear (secs : Int) : Int :=
  (civilOfDay (dayOfSeconds secs)).1

/-- `EXTRACT(month FROM ...)`. -/
def extractMonth (secs : Int) : Int :=
  (civilOfDay (dayOfSeconds secs)).2.1

/-- `EXTRACT(day FROM ...)`. -/
def extractDay (secs : Int) : Int :=
  (civilOfDay (dayOfSeconds secs)).2.2

/-- `EXTRACT(weekday FROM ...)`: day of week with Sunday = 0
(1970-01-01 was a Thursday, weekday 4). -/
def extractWeekday (secs : Int) : Int :=
  Int.emod (dayOfSeconds secs + 4) 7

/-- ISO-8601 week number of a day number: the week (Monday-based) of
the Thursday falling in the same week. -/
def isoWeekOfDay (z : Int) : Int :=
  let wd := Int.emod (z + 3) 7 + 1
  let thursday := z + (4 - wd)
  let y := (civilOfDay thursday).1
  Int.fdiv (thursday - dayOfCivil y 1 1) 7 + 1

/-- `EXTRACT(week FROM ...)`. -/
def extractWeek (secs : Int) : Int :=
  isoWeekOfDay (dayOfSeconds secs)

/-- The `SELECT` projection of `TIME_INSERT`: `start_time` is
`epoch + ts/1000 * interval 1s` and the six calendar components are
`EXTRACT`ed from that same derived timestamp (each NULL when `ts` is
NULL). -/
def timeProjection (e : EventRow) : TimeRow :=
  { start_time := e.ts.map (fun t => Int.tdiv t 1000)
  , hour := e.ts.map (fun t => extractHour (Int.tdiv t 1000))
  , day := e.ts.map (fun t => extractDay (Int.tdiv t 1000))
  , week := e.ts.map (fun t => extractWeek (Int.tdiv t 1000))
  , month := e.ts.map (fun t => extractMonth (Int.tdiv t 1000))
  , year := e.ts.map (fun t => extractYear (Int.tdiv t 1000))
  , weekday := e.ts.map (fun t => extractWeekday (Int.tdiv t 1000)) }

/-- The result set of `TIME_INSERT`'s query
(`SELECT DISTINCT ... FROM staging_events`, no WHERE clause). -/
def timeSelect (staging_events : List EventRow) : List TimeRow :=
  (staging_events.map timeProjection).dedup

/-! ## Warehouse schema state and the schema pipeline

The schema is a map from table name to the layout it was created with
(`none` = table absent).  `DROP TABLE IF EXISTS` removes the table
whether or not it exists; `CREATE TABLE` (no IF NOT EXISTS) fails when
the table already exists — the failure is swallowed by the `execute`
wrapper, leaving the schema unchanged. -/

/-- Warehouse schema state: table name ↦ layout of the existing table. -/
def Schema : Type := String → Option String

/-- Effect of `DROP TABLE IF EXISTS table` on the schema. -/
def dropIfExists (table : String) (s : Schema) : Schema :=
  fun n => if n = table then none else s n

/-- Effect of one `CREATE TABLE` statement (target table paired with
its layout) on the schema: no-op when the table already exists (the
statement errors and `execute` swallows it), otherwise the table is
added with the given layout. -/
def createTable (p : String × String) (s : Schema) : Schema :=
  match s p.1 with
  | some _ => s
  | none => fun n => if n = p.1 then some p.2 else s n

/-- The target table of each statement of `CREATE_QUERIES`, in list
order (the `CREATE TABLE <name>` heading of each statement); the names
coincide with `TABLES` in the same order. -/
def createTargets : List (String × String) :=
  [("staging_events", STAGING_EVENTS_CREATE),
   ("staging_songs", STAGING_SONGS_CREATE),
   ("songplays", SONGPLAYS_CREATE),
   ("users", USERS_CREATE),
   ("songs", SONGS_CREATE),
   ("artists", ARTISTS_CREATE),
   ("time", TIME_CREATE)]

/-- Schema effect of `drop_tables`: conditionally drop every declared
table, in `TABLES` order. -/
def dropTablesSchema (s : Schema) : Schema :=
  TABLES.foldl (fun acc t => dropIfExists t acc) s

/-- Schema effect of `create_tables`: run every CREATE statement, in
`CREATE_QUERIES` order. -/
def createTablesSchema (s : Schema) : Schema :=
  createTargets.foldl (fun acc p => createTable p acc) s

/-- Schema effect of one run of the schema pipeline
(`create_tables.main` after a successful connect): drop all seven
tables, then create all seven. -/
def schemaPipeline (s : Schema) : Schema :=
  createTablesSchema (dropTablesSchema s)

/-! ## Concrete fixtures -/

/-- A staging_events row with every column NULL (the bulk loader leaves
unmapped fields NULL). -/
def eBlank : EventRow :=
  { artist := none, auth := none, firstName := none, gender := none,
    itemInSession := none, lastName := none, length := none, level := none,
    location := none, method := none, page := none, registration := none,
    sessionId := none, song := none, status := none, ts := none,
    userAgent := none, userId := none }

/-- Fixture: user 8 on the free tier. -/
def eFree : EventRow :=
  { eBlank with
    userId := some 8
    firstName := some "Kaylee"
    level := some "free" }

/-- Fixture: the same user identity 8, same attributes except the paid
tier. -/
def ePaid : EventRow :=
  { eBlank with
    userId := some 8
    firstName := some "Kaylee"
    level := some "paid" }

/-- Fixture: a staging_events row with timestamp 0 (the epoch). -/
def eEpoch : EventRow :=
  { eBlank with ts := some 0 }

/-- The statements attempted by an effect trace, in order. -/
def execStatements (trace : List Effect) : List String :=
  trace.filterMap (fun ef =>
    match ef with
    | Effect.exec q => some q
    | _ => none)

/-! ## Helper lemmas -/

/-- Every row contributed to a left join by the left-hand row `a`
carries `a` as its first component. -/
lemma leftJoinRow_fst {α β : Type} {a : α} {right : List β}
    {joinOn : α → β → Bool} {x : α × Option β}
    (hx : x ∈ leftJoinRow a right joinOn) : x.1 = a := by
  unfold leftJoinRow at hx
  rcases hf : right.filter (fun b => joinOn a b) with _ | ⟨b, bs⟩ <;>
    rw [hf] at hx
  · simp at hx
    rw [hx]
  · rcases List.mem_map.1 hx with ⟨m, _, hm⟩
    rw [← hm]

/-- Applying a fold of conditional drops pointwise: a dropped name maps
to `none`, any other name is untouched. -/
lemma foldl_dropIfExists_apply (ts : List String) (s : Schema) (n : String) :
    (ts.foldl (fun acc t => dropIfExists t acc) s) n
      = if n ∈ ts then none else s n := by
  induction ts generalizing s with
  | nil => simp
  | cons t ts ih =>
      rw [List.foldl_cons, ih]
      by_cases hmem : n ∈ ts
      · simp [hmem]
      · by_cases hnt : n = t <;> simp [hmem, hnt, dropIfExists]

/-- A fold of CREATE statements leaves every name that is not among the
targets untouched. -/
lemma foldl_createTable_not_target (ps : List (String × String))
    (s : Schema) (n : String) (h : ∀ p ∈ ps, n ≠ p.1) :
    (ps.foldl (fun acc p => createTable p acc) s) n = s n := by
  induction ps generalizing s with
  | nil => rfl
  | cons p ps ih =>
      rw [List.foldl_cons,
        ih _ (fun q hq => h q (List.mem_cons_of_mem _ hq))]
      unfold createTable
      cases hsp : s p.1 with
      | some v => rfl
      | none => simp [h p (List.mem_cons_self _ _)]

/-- Every CREATE statement of the schema pipeline targets one of the
seven declared tables. -/
lemma createTargets_fst_mem : ∀ p ∈ createTargets, p.1 ∈ TABLES := by
  decide

/-- `dropTablesSchema` pointwise. -/
lemma dropTablesSchema_apply (s : Schema) (n : String) :
    dropTablesSchema s n = if n ∈ TABLES then none else s n :=
  foldl_dropIfExists_apply TABLES s n

/-- `createTablesSchema` does not touch names outside the declared
tables. -/
lemma createTablesSchema_outside (s : Schema) (n : String)
    (hn : n ∉ TABLES) : createTablesSchema s n = s n := by
  refine foldl_createTable_not_target createTargets s n ?_
  intro p hp hnp
  apply hn
  rw [hnp]
  exact createTargets_fst_mem p hp

/-! ## Claim theorems -/

/-- C1: every statement-execution fault raised during the insert phase
is caught by `execute`, which logs it and returns `False` (the wrapper
is a total function — no such fault crosses its boundary), and
`insert_tables` ignores the returned flag: whatever the per-statement
fault environment, its effect trace attempts every one of the five
INSERT statements in sequence, committing after each. -/
theorem claim_C1_insert_faults_contained (env : String → Option DBFault) :
    (insert_tables env).1
        = INSERT_QUERIES.flatMap (fun q => [Effect.exec q, Effect.commit])
      ∧ ∀ q f, env q = some f →
          execute q env
            = (false,
               ["ERROR: Issue executing query:\n" ++ q ++ "\n", f.msg]) := by
  constructor
  · rfl
  · intro q f h
    simp [execute, h]

/-- Witness for C1: with an environment in which every statement
raises a driver fault, the insert phase still attempts all five INSERT
statements with a commit after each, and `execute` on `USERS_INSERT`
returns `false` with the two log lines. -/
theorem claim_C1_witness :
    (insert_tables (fun _ => some (DBFault.dbError "boom"))).1
        = INSERT_QUERIES.flatMap (fun q => [Effect.exec q, Effect.commit])
      ∧ execute USERS_INSERT (fun _ => some (DBFault.dbError "boom"))
          = (false,
             ["ERROR: Issue executing query:\n" ++ USERS_INSERT ++ "\n",
              "boom"]) :=
  ⟨(claim_C1_insert_faults_contained _).1,
   (claim_C1_insert_faults_contained _).2 USERS_INSERT
     (DBFault.dbError "boom") rfl⟩

/-- C2 counterexample: a two-row staging_events fixture sharing user
identity 8 but differing in `level` does NOT yield exactly one users
row for that identity — `USERS_INSERT`'s `SELECT DISTINCT` ranges over
the whole projected tuple, the two tuples differ in `level`, and
Redshift does not enforce the declared primary key, so both rows land
in the dimension. -/
theorem claim_C2_counterexample :
    ¬ (((usersInsert [] [eFree, ePaid]).filter
          (fun r => r.user_id = some 8)).length = 1) := by
  decide

/-- C2 amended: for two staging rows sharing a user identity whose
projected attribute tuples differ (e.g. differing levels), the users
transform/insert produces exactly TWO rows for that identity — one per
distinct attribute tuple, each taken from one source row — not one. -/
theorem claim_C2_users_dedup_by_full_tuple (e1 e2 : EventRow)
    (h1 : e1.userId.isSome)
    (h2 : e2.userId = e1.userId)
    (hne : userProjection e1 ≠ userProjection e2) :
    ((usersInsert [] [e1, e2]).filter
        (fun r => r.user_id = e1.userId)).length = 2 := by
  have h2s : e2.userId.isSome := by rw [h2]; exact h1
  have hfilter :
      [e1, e2].filter (fun e => e.userId.isSome) = [e1, e2] := by
    simp [List.filter, h1, h2s]
  have hdedup :
      [userProjection e1, userProjection e2].dedup
        = [userProjection e1, userProjection e2] := by
    rw [List.dedup_cons_of_not_mem (by simp [hne]),
      List.dedup_cons_of_not_mem (by simp), List.dedup_nil]
  have hrows :
      usersInsert [] [e1, e2]
        = [userProjection e1, userProjection e2] := by
    unfold usersInsert usersSelect
    rw [hfilter]
    simpa using hdedup
  rw [hrows]
  have hu1 : (userProjection e1).user_id = e1.userId := rfl
  have hu2 : (userProjection e2).user_id = e1.userId := h2
  simp [List.filter, hu1, hu2]

/-- Witness for the amended C2: on the concrete fixture (user 8, free
tier and paid tier), the users dimension receives two rows for user
identity 8. -/
theorem claim_C2_users_dedup_witness :
    ((usersInsert [] [eFree, ePaid]).filter
        (fun r => r.user_id = eFree.userId)).length = 2 :=
  claim_C2_users_dedup_by_full_tuple eFree ePaid (by decide) rfl
    (by decide)

/-- C3 (divergence witness): the load pipeline requests a session
without autocommit (`etl.main` calls `connect` with the default
`autocommit=False`), but `connect` runs
`connection.set_session(autocommit=True)` unconditionally, so the
session it returns has autocommit enabled; the rest of the claimed
sequence does hold — the two COPY statements each followed by a commit,
then the five INSERT statements each followed by a commit, then the
close. -/
theorem claim_C3_load_pipeline_autocommit (cur : Cursor) (conn : Connection)
    (cs : String) (cfg : Config) (env : String → Option DBFault) :
    (connect (Except.ok (cur, conn)) cs false).1.2
        = some { conn with autocommit := true }
      ∧ etlMain (Except.ok (cur, conn)) cs cfg env
        = (COPY_QUERIES cfg).flatMap
            (fun q => [Effect.exec q, Effect.commit])
          ++ INSERT_QUERIES.flatMap (fun q => [Effect.exec q, Effect.commit])
          ++ [Effect.close] :=
  ⟨rfl, rfl⟩

/-- C4: a staging_events row with a NULL user identity contributes no
row to the songplays fact result and no row to the users dimension
result — appending such a row to the staging table leaves both
transform outputs unchanged. -/
theorem claim_C4_null_user_excluded (staging_events : List EventRow)
    (songs : List SongDimRow) (artists : List ArtistDimRow) (e : EventRow)
    (h : e.userId = none) :
    songplaysSelect (staging_events ++ [e]) songs artists
        = songplaysSelect staging_events songs artists
      ∧ usersSelect (staging_events ++ [e]) = usersSelect staging_events := by
  constructor
  · unfold songplaysSelect leftJoin
    rw [List.flatMap_append]
    have hsingle :
        [e].flatMap (fun a => leftJoinRow a songs onSongTitle)
          = leftJoinRow e songs onSongTitle := by
      simp
    rw [hsingle, List.flatMap_append, List.filter_append]
    have hnil :
        ((leftJoinRow e songs onSongTitle).flatMap
            (fun a => leftJoinRow a artists onArtistName)).filter
          (fun r => r.1.1.userId.isSome) = [] := by
      rw [List.filter_eq_nil_iff]
      intro x hx
      rcases List.mem_flatMap.1 hx with ⟨b, hb, hxb⟩
      have hb1 : b.1 = e := leftJoinRow_fst hb
      have hx1 : x.1 = b := leftJoinRow_fst hxb
      rw [hx1, hb1, h]
      simp
    rw [hnil, List.append_nil]
  · unfold usersSelect
    rw [List.filter_append]
    have : [e].filter (fun x => x.userId.isSome) = [] := by
      simp [List.filter, h]
    rw [this, List.append_nil]

/-- Witness for C4: the all-NULL staging row contributes nothing to
either transform. -/
theorem claim_C4_witness :
    songplaysSelect ([] ++ [eBlank]) [] [] = songplaysSelect [] [] []
      ∧ usersSelect ([] ++ [eBlank]) = usersSelect [] :=
  claim_C4_null_user_excluded [] [] [] eBlank rfl

/-- C5: the time-dimension insert derives `start_time` as
`epoch + ts/1000 seconds` (integer `bigint` division) for every staging
row whose timestamp is present, and the row's year component is the
calendar year of that instant; instantiated at ts = 0 this gives year
1970 (see the witness). -/
theorem claim_C5_time_epoch_mapping (staging_events : List EventRow)
    (e : EventRow) (ts : Int) (he : e ∈ staging_events)
    (hts : e.ts = some ts) :
    ∃ r ∈ timeSelect staging_events,
      r.start_time = some (Int.tdiv ts 1000)
        ∧ r.year = some (extractYear (Int.tdiv ts 1000)) := by
  refine ⟨timeProjection e, ?_, ?_, ?_⟩
  · unfold timeSelect
    exact List.mem_dedup.2 (List.mem_map_of_mem _ he)
  · simp [timeProjection, hts]
  · simp [timeProjection, hts]

/-- Witness for C5: a staging_events row with ts = 0 yields a time row
with start_time the epoch itself and year 1970. -/
theorem claim_C5_witness :
    ∃ r ∈ timeSelect [eEpoch],
      r.start_time = some 0 ∧ r.year = some 1970 := by
  obtain ⟨r, hr, h1, h2⟩ :=
    claim_C5_time_epoch_mapping [eEpoch] eEpoch 0 (by simp) rfl
  refine ⟨r, hr, ?_, ?_⟩
  · rw [h1]
    decide
  · rw [h2]
    decide

/-- C6: when the initial connection attempt raises, `connect` returns
the sentinel pair `(None, None)` instead of propagating the fault, and
both orchestrators test the cursor and return immediately: their effect
traces are empty — no drop, create, load, or insert is attempted. -/
theorem claim_C6_connect_failure_no_side_effects (msg cs : String)
    (autocommit : Bool) (cfg : Config) (env : String → Option DBFault)
    (faults : String → Option String) (envC : String → Option DBFault) :
    (connect (Except.error msg) cs autocommit).1 = (none, none)
      ∧ etlMain (Except.error msg) cs cfg env = []
      ∧ createTablesMain (Except.error msg) cs faults envC = [] :=
  ⟨rfl, rfl, rfl⟩

/-- C7: running the schema pipeline (drop all seven tables, then create
all seven) twice in succession yields the same warehouse schema as
running it once. -/
theorem claim_C7_schema_pipeline_idempotent (s : Schema) :
    schemaPipeline (schemaPipeline s) = schemaPipeline s := by
  have key :
      dropTablesSchema (createTablesSchema (dropTablesSchema s))
        = dropTablesSchema s := by
    funext n
    rw [dropTablesSchema_apply, dropTablesSchema_apply]
    by_cases hn : n ∈ TABLES
    · rw [if_pos hn, if_pos hn]
    · rw [if_neg hn, if_neg hn, createTablesSchema_outside _ _ hn,
        dropTablesSchema_apply, if_neg hn]
  calc schemaPipeline (schemaPipeline s)
      = createTablesSchema
          (dropTablesSchema (createTablesSchema (dropTablesSchema s))) :=
        rfl
    _ = createTablesSchema (dropTablesSchema s) := by rw [key]
    _ = schemaPipeline s := rfl

/-- C8: of the two bulk-load statements, the staging_events COPY
carries an explicit JSONPaths field-mapping document (the configured
`LOG_JSONPATH`, not the literal `auto`), while the staging_songs COPY
instructs the warehouse to infer the mapping (`JSON 'auto'`); both
reference the configured IAM role ARN and the fixed region
`us-west-2`. -/
theorem claim_C8_copy_statement_shapes (cfg : Config) :
    (STAGING_EVENTS_COPY cfg).json
        = JsonOption.jsonpathsDocument cfg.LOG_JSONPATH
      ∧ (STAGING_EVENTS_COPY cfg).json ≠ JsonOption.auto
      ∧ (STAGING_SONGS_COPY cfg).json = JsonOption.auto
      ∧ (STAGING_EVENTS_COPY cfg).iam_role = cfg.ARN
      ∧ (STAGING_SONGS_COPY cfg).iam_role = cfg.ARN
      ∧ (STAGING_EVENTS_COPY cfg).region = "us-west-2"
      ∧ (STAGING_SONGS_COPY cfg).region = "us-west-2" := by
  refine ⟨rfl, ?_, rfl, rfl, rfl, rfl, rfl⟩
  intro hcontra
  exact JsonOption.noConfusion hcontra

set_option maxRecDepth 16384 in
/-- C9: in every run of the load pipeline's insert phase the statements
attempted are exactly `INSERT_QUERIES` in list order, and in that order
the songs insert and the artists insert both come strictly before the
songplays insert — the fact table's left joins never run before the
dimensions are populated in that run. -/
theorem claim_C9_dimensions_before_fact (env : String → Option DBFault) :
    execStatements (insert_tables env).1 = INSERT_QUERIES
      ∧ List.indexOf SONGS_INSERT INSERT_QUERIES
          < List.indexOf SONGPLAYS_INSERT INSERT_QUERIES
      ∧ List.indexOf ARTISTS_INSERT INSERT_QUERIES
          < List.indexOf SONGPLAYS_INSERT INSERT_QUERIES := by
  refine ⟨rfl, ?_, ?_⟩ <;> decide

/-- C10: `disconnect`'s handler matches only the database driver's
fault class.  Called with the absent cursor `connect` returns on
failure, the `AttributeError` from `None.close()` is not caught and
propagates to the caller; called with real handles, any driver fault
from the closes is logged and swallowed. -/
theorem claim_C10_disconnect_attribute_error
    (connection : Option Connection) (c : Cursor) (k : Connection) :
    disconnect none connection
        = Except.error
            (PyFault.attributeError "NoneType object has no attribute close")
      ∧ ∃ logs, disconnect (some c) (some k) = Except.ok logs := by
  constructor
  · rfl
  · rcases c with ⟨cf⟩
    rcases k with ⟨ac, kf⟩
    cases cf <;> cases kf <;> exact ⟨_, rfl⟩

end DWH
